import Mathlib

/-!
Verification development for the queue-driven follow-up-task automation
"Påmindelse om afregning af indsatser (voksne)" (`src/main.py`).

The Python program is shallowly embedded below:

* Civil timestamps (`CivilDT`) model Python `datetime` values (whole seconds).
* `strptimeDdMmYyyy` models `datetime.strptime(s, "%d-%m-%Y %H:%M:%S")`.
* `parseIso` models `dateutil.parser.parse` on the ISO-like timestamps the
  case-management system emits (`YYYY-MM-DD[T ]HH:MM:SS` with an optional
  `Z` / `±HH:MM` offset), the input class the program receives.
* `cphOffsetMin`/`instantCph` model `ZoneInfo("Europe/Copenhagen")` (EU DST
  rules: last Sunday of March 03:00 local to last Sunday of October 03:00
  local, `fold = 0` disambiguation) and Python's comparison of aware
  datetimes by instant.
* The remote collaborators (KMD Nexus client, reporting database) are
  oracles collected in `Env`; the program's own functions
  (`hent_indsats`, `kontroller_leverandoer`, `opret_opgave`,
  `process_item`/`process_workqueue`, `populate_queue`) are translated
  directly from the source.
-/

namespace Afregning

/-- A civil (wall-clock) date-time with whole seconds, the shape of the
Python `datetime` values used by the program. -/
structure CivilDT where
  year : Nat
  month : Nat
  day : Nat
  hour : Nat
  minute : Nat
  second : Nat
deriving DecidableEq

/-- Gregorian leap-year rule, as in Python's `calendar`/`datetime`. -/
def isLeap (y : Nat) : Bool :=
  (y % 4 == 0 && y % 100 != 0) || (y % 400 == 0)

/-- Length of a month, as in Python's `datetime`. -/
def daysInMonth (y m : Nat) : Nat :=
  if m = 2 then (if isLeap y then 29 else 28)
  else if m = 4 ∨ m = 6 ∨ m = 9 ∨ m = 11 then 30
  else 31

/-- Days in year `y` before the first of month `m`. -/
def daysBeforeMonth (y m : Nat) : Nat :=
  ((List.range (m - 1)).map (fun i => daysInMonth y (i + 1))).sum

/-- Proleptic-Gregorian ordinal of a date, with 0001-01-01 ↦ 1; this is
Python's `date.toordinal`. -/
def toOrdinal (y m d : Nat) : Nat :=
  let py := y - 1
  py * 365 + py / 4 - py / 100 + py / 400 + daysBeforeMonth y m + d

/-- Day of week with Monday ↦ 0 … Sunday ↦ 6, Python's `date.weekday`. -/
def weekday (y m d : Nat) : Nat :=
  (toOrdinal y m d + 6) % 7

/-- Day of month of the last Sunday of month `m` in year `y` (EU DST
transitions happen on the last Sunday of March and October). -/
def lastSunday (y m : Nat) : Nat :=
  let L := daysInMonth y m
  L - ((weekday y m L + 1) % 7)

/-- Seconds of a civil date-time on the proleptic-Gregorian time line
(no zone applied). -/
def civilSecs (c : CivilDT) : Nat :=
  toOrdinal c.year c.month c.day * 86400 + c.hour * 3600 + c.minute * 60 + c.second

/-- Whether Europe/Copenhagen daylight-saving time is in effect at a civil
time, with Python's `fold = 0` resolution of ambiguous and non-existent
local times: DST holds from the last Sunday of March 03:00 local up to
(excluding) the last Sunday of October 03:00 local. -/
def isDST (c : CivilDT) : Bool :=
  decide (civilSecs ⟨c.year, 3, lastSunday c.year 3, 3, 0, 0⟩ ≤ civilSecs c ∧
          civilSecs c < civilSecs ⟨c.year, 10, lastSunday c.year 10, 3, 0, 0⟩)

/-- UTC offset, in minutes, that `ZoneInfo("Europe/Copenhagen")` attaches
to a civil time. -/
def cphOffsetMin (c : CivilDT) : Int :=
  if isDST c then 120 else 60

/-- The instant (seconds, UTC time line) denoted by a civil time carrying
`tzinfo = ZoneInfo("Europe/Copenhagen")`.  Python compares aware datetimes
by exactly this quantity. -/
def instantCph (c : CivilDT) : Int :=
  (civilSecs c : Int) - 60 * cphOffsetMin c

/-- Python `<` on two aware datetimes that both carry the Copenhagen zone
(the only comparison the program performs). -/
def awareLt (a b : CivilDT) : Bool :=
  decide (instantCph a < instantCph b)

/-- Python `==` on two aware datetimes that both carry the Copenhagen
zone. -/
def awareEq (a b : CivilDT) : Bool :=
  decide (instantCph a = instantCph b)

/-! ## Timestamp parsing -/

/-- Numeric value of a decimal digit character. -/
def digitVal (c : Char) : Option Nat :=
  if c.isDigit then some (c.toNat - 48) else none

/-- Read exactly two decimal digits. -/
def read2 : List Char → Option (Nat × List Char)
  | c1 :: c2 :: rest => do
    let a ← digitVal c1
    let b ← digitVal c2
    pure (10 * a + b, rest)
  | _ => none

/-- Read exactly four decimal digits. -/
def read4 : List Char → Option (Nat × List Char)
  | c1 :: c2 :: c3 :: c4 :: rest => do
    let a ← digitVal c1
    let b ← digitVal c2
    let c ← digitVal c3
    let d ← digitVal c4
    pure (1000 * a + 100 * b + 10 * c + d, rest)
  | _ => none

/-- Consume one expected character. -/
def expect (ch : Char) : List Char → Option (List Char)
  | c :: rest => if c = ch then some rest else none
  | [] => none

/-- Field-range validation performed by Python's `datetime` constructor
(rejecting what `strptime`/`parse` would raise `ValueError` on). -/
def validCivil (c : CivilDT) : Bool :=
  decide (1 ≤ c.month ∧ c.month ≤ 12 ∧ 1 ≤ c.day ∧ c.day ≤ daysInMonth c.year c.month ∧
          c.hour ≤ 23 ∧ c.minute ≤ 59 ∧ c.second ≤ 59)

/-- `datetime.strptime(s, "%d-%m-%Y %H:%M:%S")` (src/main.py:110): the
format the populator itself produced with `strftime`.  `none` models the
`ValueError` raised on a malformed string. -/
def strptimeDdMmYyyy (s : String) : Option CivilDT := do
  let (d, r) ← read2 s.data
  let r ← expect '-' r
  let (m, r) ← read2 r
  let r ← expect '-' r
  let (y, r) ← read4 r
  let r ← expect ' ' r
  let (hh, r) ← read2 r
  let r ← expect ':' r
  let (mi, r) ← read2 r
  let r ← expect ':' r
  let (ss, r) ← read2 r
  match r with
  | [] =>
    let c : CivilDT := ⟨y, m, d, hh, mi, ss⟩
    if validCivil c then some c else none
  | _ => none

/-- Result of parsing an ISO-like timestamp: civil fields plus the offset
(in minutes) the string carried, if any. -/
structure ParsedIso where
  civil : CivilDT
  offsetMinutes : Option Int
deriving DecidableEq

/-- Read a trailing `HH:MM` offset body (after the sign). -/
def readOffsetBody (r : List Char) : Option Int := do
  let (oh, r3) ← read2 r
  let r4 ← expect ':' r3
  let (om, r5) ← read2 r4
  if r5 = [] ∧ oh ≤ 23 ∧ om ≤ 59 then some ((oh : Int) * 60 + om) else none

/-- Read the optional trailing zone designator: nothing, `Z`, or a signed
`HH:MM` offset, in minutes. -/
def readZone : List Char → Option (Option Int)
  | [] => some none
  | ['Z'] => some (some 0)
  | '+' :: r2 => (readOffsetBody r2).map (fun o => some o)
  | '-' :: r2 => (readOffsetBody r2).map (fun o => some (-o))
  | _ => none

/-- Read the `T` or space separator between date and time. -/
def readSep : List Char → Option (List Char)
  | 'T' :: rest => some rest
  | ' ' :: rest => some rest
  | _ => none

/-- `dateutil.parser.parse` (src/main.py:115) on the ISO-like timestamps
(`YYYY-MM-DD` `T`/space `HH:MM:SS`, optional `Z` or `±HH:MM` offset) that
`lastStateChangeDate` carries; `none` models the parse error raised on
other strings. -/
def parseIso (s : String) : Option ParsedIso := do
  let (y, r) ← read4 s.data
  let r ← expect '-' r
  let (m, r) ← read2 r
  let r ← expect '-' r
  let (d, r) ← read2 r
  let r ← readSep r
  let (hh, r) ← read2 r
  let r ← expect ':' r
  let (mi, r) ← read2 r
  let r ← expect ':' r
  let (ss, r) ← read2 r
  let off ← readZone r
  let c : CivilDT := ⟨y, m, d, hh, mi, ss⟩
  if validCivil c then some ⟨c, off⟩ else none

/-- The instant denoted by a parsed ISO timestamp: its own offset when it
carries one, otherwise read as Copenhagen civil time. -/
def isoInstant (p : ParsedIso) : Int :=
  (civilSecs p.civil : Int) - 60 * (p.offsetMinutes.getD (cphOffsetMin p.civil))

/-- The item timestamp after `strptime` + `replace(tzinfo=Copenhagen)`
(src/main.py:110-111): the civil fields, reinterpreted in the fixed zone. -/
def normaliserIndsatsTid (s : String) : Option CivilDT :=
  strptimeDdMmYyyy s

/-- The task timestamp after `parse` + `replace(tzinfo=Copenhagen)`
(src/main.py:115-116): `replace` keeps the civil fields and discards the
offset the string carried. -/
def normaliserOpgaveTid (s : String) : Option CivilDT :=
  (parseIso s).map (·.civil)

/-! ## Data model -/

/-- The rule configuration loaded from the Excel file: the three sheets
the program reads (`Organisationer`, `Status på indsats`,
`Irrelevante leverandører`). -/
structure Regler where
  organisationer : List String
  statusPaaIndsats : List String
  irrelevanteLeverandoerer : List String

/-- The payload of one queue item, as built by `populate_queue`
(src/main.py:34-39). -/
structure ItemData where
  cpr : String
  indsats_id : Nat
  indsats_navn : String
  sidste_aendring : String
deriving DecidableEq

/-- A citizen record; `identifier` stands for
`borger["patientIdentifier"]["identifier"]`. -/
structure Borger where
  identifier : String
deriving DecidableEq

/-- An opaque handle for the citizen's `-Alt` pathway view. -/
structure Visning where
  tag : Nat
deriving DecidableEq

/-- A basket-grant reference node of the pathway tree; `grantId` stands
for the node's `"grantId"` field. -/
structure RefNode where
  grantId : Nat
deriving DecidableEq

/-- An opaque handle for a resolved grant (indsats). -/
structure Indsats where
  tag : Nat
deriving DecidableEq

/-- The grant's field values; `supplierName` stands for
`felt_værdier["supplier"]["supplier"]["name"]`. -/
structure FeltVaerdier where
  supplierName : String
deriving DecidableEq

/-- One entry of a grant's task history, with the three fields the
program reads: `opgave["type"]["name"]`, `opgave["workflowState"]["name"]`
and `opgave["lastStateChangeDate"]`. -/
structure Opgave where
  typeName : String
  workflowState : String
  lastStateChangeDate : String
deriving DecidableEq

/-- The remote collaborators the processor calls (KMD Nexus client
operations), modelled as read-only oracles; per §5 of the design they are
immutable during a run.  `filterByPath` stands for
`filter_by_path(·, "/*/*/Indsatser/basketGrantReference",
active_pathways_only=False)` from `kmd_nexus_client.tree_helpers`. -/
structure Env where
  hentBorger : String → Option Borger
  hentVisning : Borger → Option Visning
  hentReferencer : Visning → List RefNode
  filterByPath : List RefNode → List RefNode
  hentIndsats : RefNode → Indsats
  hentIndsatsElementer : Indsats → Option FeltVaerdier
  hentOpgaveHistorik : Indsats → Option (List Opgave)

/-! ## The program -/

/-- The sentinel task type this process recognises as its own. -/
def sentinelOpgaveType : String := "Indsatser til økonomi - voksne"

/-- `hent_indsats` (src/main.py:64-95).  `.ok none` is the soft "not
found" result (missing citizen, or no matching grant reference);
`.error` is the `ValueError` raised when the pathway view is absent.
Modelled from the spec: `filter_by_predicate` from
`kmd_nexus_client.tree_helpers` (not part of this repository) is the
order-preserving filter of the path-filtered references by the item's
grant id (§4.3 step 3, §9). -/
def hent_indsats (env : Env) (item_data : ItemData) : Except String (Option Indsats) :=
  match env.hentBorger item_data.cpr with
  | none => .ok none
  | some borger =>
    match env.hentVisning borger with
    | none => .error ("Kunne ikke finde -Alt for borger " ++ borger.identifier)
    | some visning =>
      let indsats_referencer := env.hentReferencer visning
      let filtrerede_indsats_referencer := env.filterByPath indsats_referencer
      let indsatser := filtrerede_indsats_referencer.filter
        (fun x => x.grantId == item_data.indsats_id)
      match indsatser with
      | [] => .ok none
      | r :: _ => .ok (some (env.hentIndsats r))

/-- `kontroller_leverandør` (src/main.py:97-106): `false` when the field
values are unavailable or the supplier is excluded. -/
def kontroller_leverandoer (env : Env) (indsats : Indsats) (regler : Regler) : Bool :=
  match env.hentIndsatsElementer indsats with
  | none => false
  | some felt => !(regler.irrelevanteLeverandoerer.contains felt.supplierName)

/-- Outcome of `opret_opgave`: whether the follow-up task was created
(with the subsequent `track_task` call) or suppressed by the
deduplication scan. -/
inductive OpgaveUdfald where
  | oprettet
  | undertrykt
deriving DecidableEq

/-- The history scan of `opret_opgave` (src/main.py:113-121): for each
entry, parse its `lastStateChangeDate` (raising on a malformed string),
reinterpret it in Copenhagen, and stop as soon as a sentinel-typed entry
is newer than the item's change or is `Aktiv`. -/
def opgaveLoekke (indsats_aendring : CivilDT) : List Opgave → Except String OpgaveUdfald
  | [] => .ok .oprettet
  | opgave :: rest =>
    match parseIso opgave.lastStateChangeDate with
    | none => .error ("Ukendt datoformat: " ++ opgave.lastStateChangeDate)
    | some p =>
      let opgave_aendring := p.civil
      if opgave.typeName == sentinelOpgaveType &&
         (awareLt indsats_aendring opgave_aendring || opgave.workflowState == "Aktiv")
      then .ok .undertrykt
      else opgaveLoekke indsats_aendring rest

/-- `opret_opgave` (src/main.py:108-134): fetch the task history, parse
and normalize the item's change timestamp, scan the history, and create
the task unless a qualifying entry suppresses it.  `.error` models the
uncaught `ValueError` of `strptime`/`parse` on malformed timestamps. -/
def opret_opgave (env : Env) (indsats : Indsats) (item_data : ItemData) :
    Except String OpgaveUdfald :=
  let opgaver := env.hentOpgaveHistorik indsats
  match strptimeDdMmYyyy item_data.sidste_aendring with
  | none => .error ("Ukendt datoformat: " ++ item_data.sidste_aendring)
  | some indsats_aendring =>
    match opgaver with
    | none => .ok .oprettet
    | some ops => opgaveLoekke indsats_aendring ops

/-- What happens to one queue item inside the `with item` block of
`process_workqueue` (src/main.py:45-62). -/
inductive StepOutcome where
  /-- The supplier check vetoed the item: `continue`. -/
  | completedSkip
  /-- The deduplication scan found a qualifying task: completes quietly. -/
  | completedSuppressed
  /-- A follow-up task was created (and `track_task` called). -/
  | completedCreated
  /-- The item was marked failed with this message. -/
  | failed (msg : String)
  /-- `hent_indsats` returned `None`, so line 52 executes `return None`:
  the item's block exits normally but `process_workqueue` itself
  returns. -/
  | earlyReturn
deriving DecidableEq

/-- One iteration of the drain loop (src/main.py:45-62).  Modelled from
the spec for the parts owned by the queue runtime (§7): an exception
escaping the `try` (the `ValueError`s of `hent_indsats`/`opret_opgave`,
which `except WorkItemError` does not catch) is absorbed by the
surrounding `with item` runtime, which marks the item failed and lets the
drain continue, exactly as the caught `WorkItemError` branch does with
`item.fail`. -/
def process_item (env : Env) (regler : Regler) (data : ItemData) : StepOutcome :=
  match hent_indsats env data with
  | .error msg => .failed msg
  | .ok none => .earlyReturn
  | .ok (some indsats) =>
    if !(kontroller_leverandoer env indsats regler) then .completedSkip
    else
      match opret_opgave env indsats data with
      | .error msg => .failed msg
      | .ok .undertrykt => .completedSuppressed
      | .ok .oprettet => .completedCreated

/-- `process_workqueue` (src/main.py:43-62) over the queue's item list,
returning the outcome of every item that was actually handled.  The
`.earlyReturn` case reproduces line 52: the function returns from inside
the loop, so the remaining items are never touched. -/
def process_workqueue (env : Env) (regler : Regler) : List ItemData → List (ItemData × StepOutcome)
  | [] => []
  | d :: rest =>
    let r := process_item env regler d
    if r = .earlyReturn then [(d, r)]
    else (d, r) :: process_workqueue env regler rest

/-! ## The populator -/

/-- One row of
`get_modified_grants_by_organisation_name` (src/main.py:31). -/
structure DbRow where
  business_key : String
  id : Nat
  name : String
  last_state_change : CivilDT
deriving DecidableEq

/-- A queue item as enqueued by `workqueue.add_item(data=…, reference=…)`. -/
structure QueueEntry where
  data : ItemData
  reference : String
deriving DecidableEq

/-- Zero-pad a number to two digits, as `strftime` does. -/
def pad2 (n : Nat) : String :=
  if n < 10 then "0" ++ toString n else toString n

/-- Zero-pad a number to four digits, as `strftime`'s `%Y` does. -/
def pad4 (n : Nat) : String :=
  if n < 10 then "000" ++ toString n
  else if n < 100 then "00" ++ toString n
  else if n < 1000 then "0" ++ toString n
  else toString n

/-- `strftime("%d-%m-%Y %H:%M:%S")` (src/main.py:38). -/
def formatTs (c : CivilDT) : String :=
  pad2 c.day ++ "-" ++ pad2 c.month ++ "-" ++ pad4 c.year ++ " " ++
  pad2 c.hour ++ ":" ++ pad2 c.minute ++ ":" ++ pad2 c.second

/-- The queue entry `populate_queue` builds from one database row
(src/main.py:33-41). -/
def mkQueueEntry (r : DbRow) : QueueEntry :=
  { data := { cpr := r.business_key, indsats_id := r.id, indsats_navn := r.name,
              sidste_aendring := formatTs r.last_state_change },
    reference := toString r.id }

/-- `populate_queue` (src/main.py:28-41): for each configured
organisation, query the grants modified in the trailing 4-day window with
the accepted workflow states, and enqueue one item per returned row.
`db` is the oracle for
`get_modified_grants_by_organisation_name(organisation_name, days_back,
workflow_states)`. -/
def populate_queue (db : String → Nat → List String → List DbRow) (regler : Regler) :
    List QueueEntry :=
  regler.organisationer.flatMap
    (fun organisation => (db organisation 4 regler.statusPaaIndsats).map mkQueueEntry)

/-! ## The deduplication decision, characterised -/

/-- A history entry qualifies to suppress creation (src/main.py:118-121):
sentinel type, and newer change than the item's (after Copenhagen
reinterpretation) or workflow state `Aktiv`. -/
def kvalificerer (indsats_aendring : CivilDT) (o : Opgave) : Bool :=
  match parseIso o.lastStateChangeDate with
  | none => false
  | some p =>
    o.typeName == sentinelOpgaveType &&
      (awareLt indsats_aendring p.civil || o.workflowState == "Aktiv")

theorem opgaveLoekke_spec (indsats_aendring : CivilDT) (ops : List Opgave)
    (hp : ∀ o ∈ ops, (parseIso o.lastStateChangeDate).isSome = true) :
    opgaveLoekke indsats_aendring ops =
      .ok (if ops.any (kvalificerer indsats_aendring) then .undertrykt else .oprettet) := by
  induction ops with
  | nil => rfl
  | cons o rest ih =>
    obtain ⟨p, hpEq⟩ := Option.isSome_iff_exists.mp (hp o (List.mem_cons_self o rest))
    have hrest := fun o' h => hp o' (List.mem_cons_of_mem o h)
    by_cases hc : (o.typeName == sentinelOpgaveType &&
        (awareLt indsats_aendring p.civil || o.workflowState == "Aktiv")) = true
    · simp [opgaveLoekke, hpEq, hc, kvalificerer]
    · simp only [Bool.not_eq_true] at hc
      simp [opgaveLoekke, hpEq, hc, kvalificerer, ih hrest]

/-! ## Concrete fixtures used by witnesses and counterexamples -/

/-- A small rule configuration. -/
def reglerW : Regler := ⟨["Org A"], ["Bevilget"], ["Udelukket ApS"]⟩

/-- A concrete grant handle. -/
def indsatsW : Indsats := ⟨42⟩

/-- A concrete queue item over grant 42. -/
def dW : ItemData := ⟨"010101-1234", 42, "Indsats A", "01-01-2024 10:00:00"⟩

/-- A second queue item, used to observe whether the drain continues. -/
def dW2 : ItemData := ⟨"020202-5678", 43, "Indsats B", "02-01-2024 11:00:00"⟩

/-- `dW`'s parsed change time. -/
def iAW : CivilDT := ⟨2024, 1, 1, 10, 0, 0⟩

/-- A sentinel-typed, `Aktiv` history entry older than `dW`'s change. -/
def opgaveAktiv : Opgave := ⟨sentinelOpgaveType, "Aktiv", "2023-06-01T12:00:00+02:00"⟩

/-- An environment where the citizen, pathway and grant 42 all resolve
and the supplier is `Acme`; only the task history varies. -/
def envMed (historik : Indsats → Option (List Opgave)) : Env :=
  { hentBorger := fun _ => some ⟨"010101-1234"⟩
    hentVisning := fun _ => some ⟨0⟩
    hentReferencer := fun _ => [⟨42⟩]
    filterByPath := fun l => l
    hentIndsats := fun r => ⟨r.grantId⟩
    hentIndsatsElementer := fun _ => some ⟨"Acme"⟩
    hentOpgaveHistorik := historik }

/-! ## Claims -/

/-- C1: per-item deduplication decision of `opret_opgave`
(src/main.py:108-134).  Given that the item's timestamp parses and every
history entry's `lastStateChangeDate` parses (so no `ValueError`
interrupts the scan), creation is suppressed exactly when some historical
task of the sentinel type has a normalized change time strictly after the
item's normalized change time or is `Aktiv`; and a new follow-up task is
created exactly when no entry qualifies — in particular when the history
is empty or absent (`getD []` collapses both to the empty list). -/
theorem C1_per_item_dedup_decision (env : Env) (indsats : Indsats) (d : ItemData)
    (indsats_aendring : CivilDT)
    (hi : strptimeDdMmYyyy d.sidste_aendring = some indsats_aendring)
    (hp : ∀ o ∈ (env.hentOpgaveHistorik indsats).getD [],
        (parseIso o.lastStateChangeDate).isSome = true) :
    (opret_opgave env indsats d = .ok .undertrykt ↔
      ∃ o ∈ (env.hentOpgaveHistorik indsats).getD [],
        kvalificerer indsats_aendring o = true) ∧
    (opret_opgave env indsats d = .ok .oprettet ↔
      ∀ o ∈ (env.hentOpgaveHistorik indsats).getD [],
        kvalificerer indsats_aendring o = false) := by
  cases hh : env.hentOpgaveHistorik indsats with
  | none => simp [opret_opgave, hi, hh]
  | some ops =>
    rw [hh] at hp
    simp only [Option.getD_some] at hp
    have hs := opgaveLoekke_spec indsats_aendring ops hp
    by_cases hc : ops.any (kvalificerer indsats_aendring) = true
    · simp only [List.any_eq_true] at hc
      simp [opret_opgave, hi, hh, hs, List.any_eq_true, hc]
    · simp only [Bool.not_eq_true, List.any_eq_false] at hc
      simp [opret_opgave, hi, hh, hs, hc]

/-- Witness for C1 at a concrete input: an `Aktiv` sentinel task in the
history suppresses creation. -/
theorem C1_per_item_dedup_decision_witness :
    opret_opgave (envMed (fun _ => some [opgaveAktiv])) indsatsW dW = .ok .undertrykt :=
  ((C1_per_item_dedup_decision (envMed (fun _ => some [opgaveAktiv])) indsatsW dW iAW
    (by decide) (by decide)).1).mpr (by decide)

/-- Any qualifying member of the history suppresses creation. -/
theorem suppression_of_member (env : Env) (indsats : Indsats) (d : ItemData)
    (indsats_aendring : CivilDT) (ops : List Opgave) (o : Opgave)
    (hi : strptimeDdMmYyyy d.sidste_aendring = some indsats_aendring)
    (hh : env.hentOpgaveHistorik indsats = some ops)
    (hp : ∀ o' ∈ ops, (parseIso o'.lastStateChangeDate).isSome = true)
    (hmem : o ∈ ops)
    (hq : kvalificerer indsats_aendring o = true) :
    opret_opgave env indsats d = .ok .undertrykt := by
  have hs := opgaveLoekke_spec indsats_aendring ops hp
  have ha : ops.any (kvalificerer indsats_aendring) = true :=
    List.any_eq_true.mpr ⟨o, hmem, hq⟩
  simp [opret_opgave, hi, hh, hs, ha]

/-- C7: active-state short-circuit.  A history entry of the sentinel type
(§4.3 scopes the scan to those) whose workflow state is `Aktiv`
suppresses task creation with no hypothesis at all relating the entry's
change time to the item's change time — only that both timestamps parse,
as the scan dereferences them. -/
theorem C7_active_short_circuit (env : Env) (indsats : Indsats) (d : ItemData)
    (indsats_aendring : CivilDT) (ops : List Opgave) (o : Opgave)
    (hi : strptimeDdMmYyyy d.sidste_aendring = some indsats_aendring)
    (hh : env.hentOpgaveHistorik indsats = some ops)
    (hp : ∀ o' ∈ ops, (parseIso o'.lastStateChangeDate).isSome = true)
    (hmem : o ∈ ops)
    (htype : o.typeName = sentinelOpgaveType)
    (hact : o.workflowState = "Aktiv") :
    opret_opgave env indsats d = .ok .undertrykt := by
  apply suppression_of_member env indsats d indsats_aendring ops o hi hh hp hmem
  obtain ⟨p, hpEq⟩ := Option.isSome_iff_exists.mp (hp o hmem)
  simp [kvalificerer, hpEq, htype, hact]

/-- A sentinel-typed `Aktiv` entry whose change time (2022) is far
earlier than the item's (2024). -/
def opgaveAktivTidlig : Opgave := ⟨sentinelOpgaveType, "Aktiv", "2022-12-31T23:59:59+01:00"⟩

/-- Witness for C7: the `Aktiv` entry is two years older than the item's
change, yet creation is suppressed. -/
theorem C7_active_short_circuit_witness :
    opret_opgave (envMed (fun _ => some [opgaveAktivTidlig])) indsatsW dW = .ok .undertrykt :=
  C7_active_short_circuit (envMed (fun _ => some [opgaveAktivTidlig])) indsatsW dW iAW
    [opgaveAktivTidlig] opgaveAktivTidlig (by decide) rfl (by decide) (by decide) rfl rfl

/-- A sentinel-typed, non-active entry whose string denotes an instant
after the item's change (10:30 UTC vs 09:00 UTC) but whose civil fields
(09:30) are before the item's (10:00). -/
def opgC6 : Opgave := ⟨sentinelOpgaveType, "Afsluttet", "2024-01-01T09:30:00-01:00"⟩

/-- C6 fails as stated on the code: a sentinel-typed history entry whose
`lastStateChangeDate` denotes an instant strictly later than the item's
`last_change_timestamp` does *not* suppress creation, because
src/main.py:116 re-attaches the Copenhagen zone with `replace`, keeping
the civil fields and discarding the string's own `-01:00` offset. -/
theorem C6_counterexample :
    strptimeDdMmYyyy dW.sidste_aendring = some iAW ∧
    parseIso opgC6.lastStateChangeDate = some ⟨⟨2024, 1, 1, 9, 30, 0⟩, some (-60)⟩ ∧
    instantCph iAW < isoInstant ⟨⟨2024, 1, 1, 9, 30, 0⟩, some (-60)⟩ ∧
    opret_opgave (envMed (fun _ => some [opgC6])) indsatsW dW = .ok .oprettet := by
  refine ⟨by decide, by decide, by decide, by rfl⟩

/-- C6 amended: deduplication monotonicity holds for the timestamp pairs
this system actually produces — those whose ISO offset is
Europe/Copenhagen's offset at the entry's own civil time.  For such an
entry of the sentinel type, denoting an instant strictly later than the
item's normalized change time suppresses creation. -/
theorem C6_dedup_monotonicity (env : Env) (indsats : Indsats) (d : ItemData)
    (indsats_aendring : CivilDT) (ops : List Opgave) (o : Opgave) (p : ParsedIso)
    (hi : strptimeDdMmYyyy d.sidste_aendring = some indsats_aendring)
    (hh : env.hentOpgaveHistorik indsats = some ops)
    (hp : ∀ o' ∈ ops, (parseIso o'.lastStateChangeDate).isSome = true)
    (hmem : o ∈ ops)
    (htype : o.typeName = sentinelOpgaveType)
    (hpo : parseIso o.lastStateChangeDate = some p)
    (hoff : p.offsetMinutes = some (cphOffsetMin p.civil))
    (hlater : instantCph indsats_aendring < isoInstant p) :
    opret_opgave env indsats d = .ok .undertrykt := by
  apply suppression_of_member env indsats d indsats_aendring ops o hi hh hp hmem
  have hlt : instantCph indsats_aendring < instantCph p.civil := by
    simpa [isoInstant, hoff, instantCph] using hlater
  simp [kvalificerer, hpo, htype, awareLt, hlt]

/-- The spec's own example entry: task change `2024-01-01T12:00:00+01:00`
(`+01:00` is Copenhagen's offset on that date), later than the item's
`01-01-2024 10:00:00`. -/
def opgC6W : Opgave := ⟨sentinelOpgaveType, "Afsluttet", "2024-01-01T12:00:00+01:00"⟩

/-- Witness for the amended C6, at the spec's own example pair. -/
theorem C6_dedup_monotonicity_witness :
    opret_opgave (envMed (fun _ => some [opgC6W])) indsatsW dW = .ok .undertrykt :=
  C6_dedup_monotonicity (envMed (fun _ => some [opgC6W])) indsatsW dW iAW
    [opgC6W] opgC6W ⟨⟨2024, 1, 1, 12, 0, 0⟩, some 60⟩
    (by decide) rfl (by decide) (by decide) rfl (by decide) (by decide) (by decide)

/-- C5 fails as stated on the code: `01-01-2024 10:00:00` read as
Copenhagen civil time and `2024-01-01T11:00:00+02:00` denote the same
instant (09:00 UTC), yet after the program's normalization (which keeps
civil fields and overwrites the zone, src/main.py:110-116) the two
datetimes compare unequal. -/
theorem C5_counterexample :
    normaliserIndsatsTid "01-01-2024 10:00:00" = some ⟨2024, 1, 1, 10, 0, 0⟩ ∧
    parseIso "2024-01-01T11:00:00+02:00" = some ⟨⟨2024, 1, 1, 11, 0, 0⟩, some 120⟩ ∧
    normaliserOpgaveTid "2024-01-01T11:00:00+02:00" = some ⟨2024, 1, 1, 11, 0, 0⟩ ∧
    instantCph ⟨2024, 1, 1, 10, 0, 0⟩ = isoInstant ⟨⟨2024, 1, 1, 11, 0, 0⟩, some 120⟩ ∧
    awareEq ⟨2024, 1, 1, 10, 0, 0⟩ ⟨2024, 1, 1, 11, 0, 0⟩ = false := by
  decide

/-- C5 amended: normalization is instant-preserving exactly for
offset-bearing strings whose offset is Europe/Copenhagen's offset at
their own civil time: under that condition the two normalized datetimes
compare equal iff the two source timestamps denote the same instant. -/
theorem C5_normalization_instant (s1 s2 : String) (c1 c2 : CivilDT) (p : ParsedIso)
    (_h1 : normaliserIndsatsTid s1 = some c1)
    (h2 : parseIso s2 = some p)
    (h3 : normaliserOpgaveTid s2 = some c2)
    (hoff : p.offsetMinutes = some (cphOffsetMin p.civil)) :
    instantCph c1 = isoInstant p ↔ awareEq c1 c2 = true := by
  have hc2 : c2 = p.civil := by
    simp [normaliserOpgaveTid, h2] at h3
    exact h3.symm
  subst hc2
  simp [awareEq, isoInstant, hoff, instantCph]

/-- Witness for the amended C5: `01-01-2024 10:00:00` and
`2024-01-01T10:00:00+01:00` carry Copenhagen's winter offset, so equal
instants coincide with equal normalized datetimes. -/
theorem C5_normalization_instant_witness :
    instantCph ⟨2024, 1, 1, 10, 0, 0⟩ =
      isoInstant ⟨⟨2024, 1, 1, 10, 0, 0⟩, some 60⟩ ↔
    awareEq ⟨2024, 1, 1, 10, 0, 0⟩ ⟨2024, 1, 1, 10, 0, 0⟩ = true :=
  C5_normalization_instant "01-01-2024 10:00:00" "2024-01-01T10:00:00+01:00"
    ⟨2024, 1, 1, 10, 0, 0⟩ ⟨2024, 1, 1, 10, 0, 0⟩ ⟨⟨2024, 1, 1, 10, 0, 0⟩, some 60⟩
    (by decide) (by decide) (by decide) (by decide)

/-- An environment where no citizen resolves, so `hent_indsats` returns
the soft `None` for every item. -/
def envIngenBorger : Env :=
  { hentBorger := fun _ => none
    hentVisning := fun _ => none
    hentReferencer := fun _ => []
    filterByPath := fun l => l
    hentIndsats := fun r => ⟨r.grantId⟩
    hentIndsatsElementer := fun _ => none
    hentOpgaveHistorik := fun _ => none }

/-- C2 fails on the code: with two queued items whose citizen lookup
returns none for the first, the `return None` at src/main.py:52 exits
`process_workqueue` from inside the drain loop, so the second item is
never handled — one item's soft-skip outcome prevents the remaining items
from being processed.  (The supplier branch at line 57 correctly uses
`continue`; line 52 is the slip.) -/
theorem C2_skip_aborts_drain :
    process_item envIngenBorger reglerW dW = .earlyReturn ∧
    process_workqueue envIngenBorger reglerW [dW, dW2] = [(dW, .earlyReturn)] ∧
    (process_workqueue envIngenBorger reglerW [dW, dW2]).length < [dW, dW2].length := by
  refine ⟨rfl, rfl, by decide⟩

/-- An environment where the citizen and pathway resolve but the only
basket-grant reference is for grant 99, so the item over grant 42 gets
zero matches after grant-id filtering. -/
def envIngenMatch : Env :=
  { hentBorger := fun _ => some ⟨"010101-1234"⟩
    hentVisning := fun _ => some ⟨0⟩
    hentReferencer := fun _ => [⟨99⟩]
    filterByPath := fun l => l
    hentIndsats := fun r => ⟨r.grantId⟩
    hentIndsatsElementer := fun _ => some ⟨"Acme"⟩
    hentOpgaveHistorik := fun _ => none }

/-- C3 fails on the code in its last conjunct: an item whose grant
reference yields zero matches does complete without error and without
task creation (`hent_indsats` returns the soft `.ok none` and the item's
`with` block exits normally), but processing does *not* continue with the
next queue item — the `return None` at src/main.py:52 ends the drain, and
the second item is never handled. -/
theorem C3_soft_noop_stops_drain :
    hent_indsats envIngenMatch dW = .ok none ∧
    process_item envIngenMatch reglerW dW = .earlyReturn ∧
    process_workqueue envIngenMatch reglerW [dW, dW2] = [(dW, .earlyReturn)] := by
  exact ⟨rfl, rfl, rfl⟩

/-- C4: when the citizen resolves but the pathway view is absent,
`hent_indsats` raises (src/main.py:72-75) with the descriptive message,
the item is marked failed, and the drain continues with the next item —
an outcome distinct from the soft-skip outcomes.  The marking/continuing
behavior of the surrounding `with item` runtime on an escaping exception
is modelled from the spec (§7), as `automation_server_client` is not part
of this repository. -/
theorem C4_missing_pathway_hard_failure (env : Env) (regler : Regler) (d : ItemData)
    (rest : List ItemData) (b : Borger)
    (hb : env.hentBorger d.cpr = some b)
    (hv : env.hentVisning b = none) :
    process_item env regler d =
      .failed ("Kunne ikke finde -Alt for borger " ++ b.identifier) ∧
    process_workqueue env regler (d :: rest) =
      (d, .failed ("Kunne ikke finde -Alt for borger " ++ b.identifier)) ::
        process_workqueue env regler rest ∧
    (∀ m, StepOutcome.failed m ≠ .earlyReturn ∧ StepOutcome.failed m ≠ .completedSkip) := by
  have hpi : process_item env regler d =
      .failed ("Kunne ikke finde -Alt for borger " ++ b.identifier) := by
    simp [process_item, hent_indsats, hb, hv]
  refine ⟨hpi, ?_, fun m => ⟨by simp, by simp⟩⟩
  simp [process_workqueue, hpi]

/-- An environment whose citizen resolves but has no pathway view. -/
def envUdenVisning : Env :=
  { hentBorger := fun _ => some ⟨"010101-1234"⟩
    hentVisning := fun _ => none
    hentReferencer := fun _ => []
    filterByPath := fun l => l
    hentIndsats := fun r => ⟨r.grantId⟩
    hentIndsatsElementer := fun _ => none
    hentOpgaveHistorik := fun _ => none }

/-- Witness for C4 at a concrete input. -/
theorem C4_missing_pathway_hard_failure_witness :
    process_item envUdenVisning reglerW dW =
      .failed ("Kunne ikke finde -Alt for borger " ++ "010101-1234") ∧
    process_workqueue envUdenVisning reglerW (dW :: [dW2]) =
      (dW, .failed ("Kunne ikke finde -Alt for borger " ++ "010101-1234")) ::
        process_workqueue envUdenVisning reglerW [dW2] ∧
    (∀ m, StepOutcome.failed m ≠ .earlyReturn ∧ StepOutcome.failed m ≠ .completedSkip) :=
  C4_missing_pathway_hard_failure envUdenVisning reglerW dW [dW2] ⟨"010101-1234"⟩ rfl rfl

/-- C8: supplier exclusion.  If the grant resolves but its field values
are unavailable or its supplier name is excluded, the item is skipped
(`continue`, src/main.py:56-57): no error, no task creation, and the
task history is never consulted — the outcome is `.completedSkip`
whatever the history oracle returns. -/
theorem C8_supplier_exclusion (env : Env) (regler : Regler) (d : ItemData) (indsats : Indsats)
    (hind : hent_indsats env d = .ok (some indsats))
    (hsup : env.hentIndsatsElementer indsats = none ∨
      ∃ f, env.hentIndsatsElementer indsats = some f ∧
        regler.irrelevanteLeverandoerer.contains f.supplierName = true) :
    ∀ historik : Indsats → Option (List Opgave),
      process_item { env with hentOpgaveHistorik := historik } regler d = .completedSkip := by
  intro historik
  have hind' : hent_indsats { env with hentOpgaveHistorik := historik } d =
      .ok (some indsats) := hind
  have hk : kontroller_leverandoer { env with hentOpgaveHistorik := historik } indsats regler
      = false := by
    rcases hsup with h | ⟨f, hf, hmem⟩
    · simp [kontroller_leverandoer, h]
    · simp only [kontroller_leverandoer, hf, hmem, Bool.not_true]
  simp [process_item, hind', hk]

/-- An environment resolving grant 42 with the excluded supplier. -/
def envUdelukket : Env :=
  { hentBorger := fun _ => some ⟨"010101-1234"⟩
    hentVisning := fun _ => some ⟨0⟩
    hentReferencer := fun _ => [⟨42⟩]
    filterByPath := fun l => l
    hentIndsats := fun r => ⟨r.grantId⟩
    hentIndsatsElementer := fun _ => some ⟨"Udelukket ApS"⟩
    hentOpgaveHistorik := fun _ => none }

/-- Witness for C8: even with an otherwise actionable history (no
qualifying task at all), the excluded supplier short-circuits to a
skip. -/
theorem C8_supplier_exclusion_witness :
    process_item { envUdelukket with hentOpgaveHistorik := fun _ => some [] } reglerW dW =
      .completedSkip :=
  C8_supplier_exclusion envUdelukket reglerW dW ⟨42⟩ rfl
    (Or.inr ⟨⟨"Udelukket ApS"⟩, rfl, by decide⟩) (fun _ => some [])

/-- C9: populator contract (src/main.py:28-41).  Every row returned by
the reporting database for a configured organisation — queried with the
4-day trailing window and the accepted workflow states — is enqueued as
exactly one item (the queue length is the total row count) whose data
carries cpr, grant id, grant name and the `%d-%m-%Y %H:%M:%S` formatted
timestamp, and whose external reference is the grant id; populating twice
without clearing therefore yields at least two queue entries with the
same reference for that grant. -/
theorem C9_populate_contract (db : String → Nat → List String → List DbRow)
    (regler : Regler) (organisation : String) (r : DbRow)
    (ho : organisation ∈ regler.organisationer)
    (hr : r ∈ db organisation 4 regler.statusPaaIndsats) :
    mkQueueEntry r ∈ populate_queue db regler ∧
    (mkQueueEntry r).reference = toString r.id ∧
    (mkQueueEntry r).data =
      ⟨r.business_key, r.id, r.name, formatTs r.last_state_change⟩ ∧
    (populate_queue db regler).length =
      (regler.organisationer.map
        (fun o => (db o 4 regler.statusPaaIndsats).length)).sum ∧
    2 ≤ (populate_queue db regler ++ populate_queue db regler).count (mkQueueEntry r) := by
  have hmem : mkQueueEntry r ∈ populate_queue db regler := by
    rw [populate_queue, List.mem_flatMap]
    exact ⟨organisation, ho, List.mem_map_of_mem mkQueueEntry hr⟩
  refine ⟨hmem, rfl, rfl, ?_, ?_⟩
  · simp [populate_queue, List.length_flatMap, Function.comp_def]
  · rw [List.count_append]
    have h1 : 0 < (populate_queue db regler).count (mkQueueEntry r) :=
      List.count_pos_iff.mpr hmem
    omega

/-- A one-organisation, one-row database fixture. -/
def dbW : String → Nat → List String → List DbRow :=
  fun _ _ _ => [⟨"010101-1234", 42, "Indsats A", ⟨2024, 6, 1, 9, 0, 0⟩⟩]

/-- Witness for C9 at a concrete database. -/
theorem C9_populate_contract_witness :
    mkQueueEntry ⟨"010101-1234", 42, "Indsats A", ⟨2024, 6, 1, 9, 0, 0⟩⟩ ∈
      populate_queue dbW reglerW ∧
    (mkQueueEntry ⟨"010101-1234", 42, "Indsats A", ⟨2024, 6, 1, 9, 0, 0⟩⟩).reference =
      toString 42 ∧
    (mkQueueEntry ⟨"010101-1234", 42, "Indsats A", ⟨2024, 6, 1, 9, 0, 0⟩⟩).data =
      ⟨"010101-1234", 42, "Indsats A", formatTs ⟨2024, 6, 1, 9, 0, 0⟩⟩ ∧
    (populate_queue dbW reglerW).length =
      (reglerW.organisationer.map
        (fun o => (dbW o 4 reglerW.statusPaaIndsats).length)).sum ∧
    2 ≤ (populate_queue dbW reglerW ++ populate_queue dbW reglerW).count
      (mkQueueEntry ⟨"010101-1234", 42, "Indsats A", ⟨2024, 6, 1, 9, 0, 0⟩⟩) :=
  C9_populate_contract dbW reglerW "Org A"
    ⟨"010101-1234", 42, "Indsats A", ⟨2024, 6, 1, 9, 0, 0⟩⟩ (by decide) (by decide)

/-- C10: when several references in the path-filtered tree match the
item's grant id, `hent_indsats` resolves `indsatser[0]` — the first match
in traversal order (`List.filter` preserves the traversal order of
`filterByPath`'s output) — and ignores the rest without any error or
ambiguity check. -/
theorem C10_first_match_resolution (env : Env) (d : ItemData) (b : Borger) (v : Visning)
    (r1 : RefNode) (rs : List RefNode)
    (hb : env.hentBorger d.cpr = some b)
    (hv : env.hentVisning b = some v)
    (hf : (env.filterByPath (env.hentReferencer v)).filter
        (fun x => x.grantId == d.indsats_id) = r1 :: rs)
    (_hmulti : rs ≠ []) :
    hent_indsats env d = .ok (some (env.hentIndsats r1)) := by
  simp [hent_indsats, hb, hv, hf]

/-- An environment with two references to grant 42 in the pathway. -/
def envDobbelt : Env :=
  { hentBorger := fun _ => some ⟨"010101-1234"⟩
    hentVisning := fun _ => some ⟨0⟩
    hentReferencer := fun _ => [⟨42⟩, ⟨42⟩]
    filterByPath := fun l => l
    hentIndsats := fun r => ⟨r.grantId⟩
    hentIndsatsElementer := fun _ => some ⟨"Acme"⟩
    hentOpgaveHistorik := fun _ => none }

/-- Witness for C10: two matching references, first one resolved, no
error. -/
theorem C10_first_match_resolution_witness :
    hent_indsats envDobbelt dW = .ok (some (envDobbelt.hentIndsats ⟨42⟩)) :=
  C10_first_match_resolution envDobbelt dW ⟨"010101-1234"⟩ ⟨0⟩ ⟨42⟩ [⟨42⟩]
    rfl rfl (by decide) (by decide)

end Afregning
